import Mathlib

/-!
Verification of the kitipy docker stack abstraction
(`src/kitipy/docker/stack.py`).

The embedding models the two backend classes (`ComposeStack`, `SwarmStack`)
and the factory `load_stack` as pure Lean functions.  Python keyword-argument
dictionaries become ordered association lists (Python dicts preserve
insertion order), Python runtime values that flow through the flag machinery
become the inductive `PyVal`, and Python runtime exceptions become explicit
error values.  Each public operation is modelled by the command string it
hands to the Executor together with the pipe/check switches it forwards
(`Option.none` meaning the switch was not passed, so the Executor falls back
to its own default).  The Executor itself and the YAML/JSON parsers are
external collaborators of the repository; where an operation's behaviour
depends on them they appear as function parameters.
-/

namespace Kitipy

/-- Python runtime values as they flow through the stack layer: strings,
booleans, tuples, lists, dicts and None.  (Numbers never flow through the
keyword-argument machinery in the modelled code paths, so they are omitted.) -/
inductive PyVal where
  | str : String → PyVal
  | bool : Bool → PyVal
  | tuple : List PyVal → PyVal
  | list : List PyVal → PyVal
  | dict : List (String × PyVal) → PyVal
  | none : PyVal

/-- Python runtime exceptions raised by the modelled code paths. -/
inductive PyErr where
  | typeError : String → PyErr
  | keyError : String → PyErr
  | indexError : String → PyErr
  | attributeError : String → PyErr
deriving DecidableEq

/-- A Python keyword-argument dictionary: insertion-ordered key/value pairs,
keys unique. -/
abbrev Kwargs := List (String × PyVal)

/-- Dictionary lookup (`d[k]` / the value side of `k in d`). -/
def getVal : Kwargs → String → Option PyVal
  | [], _ => Option.none
  | (k', v) :: rest, k => if k' = k then some v else getVal rest k

/-- Python `k in d`. -/
def hasKey (l : Kwargs) (k : String) : Bool :=
  match getVal l k with
  | some _ => true
  | Option.none => false

/-- Python `d[k] = v`: replaces the value in place when the key exists,
otherwise appends the pair at the end (insertion order). -/
def setKey : Kwargs → String → PyVal → Kwargs
  | [], k, v => [(k, v)]
  | (k', v') :: rest, k, v =>
      if k' = k then (k, v) :: rest else (k', v') :: setKey rest k v

/-- Python `d.setdefault(k, v)`: leaves the dict unchanged when the key
exists, otherwise appends the pair at the end. -/
def setdefault (l : Kwargs) (k : String) (v : PyVal) : Kwargs :=
  if hasKey l k then l else l ++ [(k, v)]

/-- Python `d.get(k, None)`. -/
def pyGet (l : Kwargs) (k : String) : PyVal :=
  (getVal l k).getD PyVal.none

/-- The string a scalar value renders to when interpolated into a command
(`str(v)` in Python).  Composite values never reach this rendering in the
modelled code paths. -/
def pyStr : PyVal → String
  | .str s => s
  | .bool true => "True"
  | .bool false => "False"
  | .none => "None"
  | .tuple _ => "tuple"
  | .list _ => "list"
  | .dict _ => "dict"

/-- Python truthiness, as used by `load_stack` on the `swarm` field. -/
def pyTruthy : PyVal → Bool
  | .str s => !(s == "")
  | .bool b => b
  | .tuple xs => !xs.isEmpty
  | .list xs => !xs.isEmpty
  | .dict xs => !xs.isEmpty
  | .none => false

/-- A string as a Python iterable of one-character strings. -/
def charStrings (s : String) : List PyVal :=
  s.toList.map (fun ch => PyVal.str (Char.toString ch))

/-- Python in-place `+=` on the values that can hold a `filter` entry.
Concatenating a string onto a tuple is a `TypeError`; `+=` on a list
extends the list with the iterable on the right, so a string on the right
is spread into its characters.  (Arithmetic on booleans is never reached
by the modelled code and is collapsed to an error here.) -/
def pyIAdd : PyVal → PyVal → Except PyErr PyVal
  | .str a, .str b => .ok (.str (a ++ b))
  | .str _, _ => .error (.typeError "can only concatenate str to str")
  | .tuple a, .tuple b => .ok (.tuple (a ++ b))
  | .tuple _, _ => .error (.typeError "can only concatenate tuple to tuple")
  | .list a, .str s => .ok (.list (a ++ charStrings s))
  | .list a, .list b => .ok (.list (a ++ b))
  | .list a, .tuple b => .ok (.list (a ++ b))
  | .list _, _ => .error (.typeError "argument is not iterable")
  | .dict _, _ => .error (.typeError "unsupported operand")
  | .bool _, _ => .error (.typeError "unsupported operand")
  | .none, _ => .error (.typeError "unsupported operand")

/-- Dash-encode an option name: underscores become dashes. -/
def dashify (k : String) : String :=
  String.mk (k.toList.map (fun ch => if ch = '_' then '-' else ch))

/-- Modelled from the spec: the Command Flag Encoder (`append_cmd_flags` from
`kitipy.utils`, whose source file is not part of the sources).  Spec rules:
a boolean option set to true appends a bare `--key` flag (dashes replacing
underscores), false appends nothing; a scalar appends `--key value`; a
multi-valued option appends one `--key value` pair per element in order, an
empty collection contributing nothing. -/
def encodeFlag (k : String) : PyVal → String
  | .bool true => " --" ++ dashify k
  | .bool false => ""
  | .str s => " --" ++ dashify k ++ " " ++ s
  | .none => " --" ++ dashify k ++ " None"
  | .tuple xs => String.join (xs.map (fun x => " --" ++ dashify k ++ " " ++ pyStr x))
  | .list xs => String.join (xs.map (fun x => " --" ++ dashify k ++ " " ++ pyStr x))
  | .dict _ => ""

/-- Modelled from the spec: encode a whole FlagSet onto a base command,
option by option in insertion order. -/
def append_cmd_flags (cmd : String) (kwargs : Kwargs) : String :=
  kwargs.foldl (fun acc kv => acc ++ encodeFlag kv.1 kv.2) cmd

/-- A command handed to the Executor, together with the pipe/check switches
that were explicitly forwarded.  `Option.none` means the switch was not
passed, so the Executor's own default applies. -/
structure Invocation where
  cmd : String
  pipe : Option Bool
  check : Option Bool

/-- SwarmStack.ps: seeds `kwargs[filter]` with the empty tuple when absent,
then does `kwargs[filter] += (label-string)` — the right-hand side is a
plain string, not a one-element tuple — encodes the flags onto
`docker service ls` and appends the space-joined service names. -/
def swarmPs (name : String) (services : List String) (p c : Bool)
    (kwargs : Kwargs) : Except PyErr Invocation :=
  let kw := if hasKey kwargs "filter" then kwargs
            else setKey kwargs "filter" (.tuple [])
  match pyIAdd (pyGet kw "filter")
      (.str ("label=com.docker.stack.namespace=" ++ name)) with
  | .error e => .error e
  | .ok v =>
      let kw2 := setKey kw "filter" v
      .ok { cmd := append_cmd_flags "docker service ls" kw2
                    ++ " " ++ String.intercalate " " services,
            pipe := some p, check := some c }

/-- C1: SwarmStack.ps with no caller-supplied filter raises a TypeError
(the label string is concatenated onto the empty tuple) before any command
is dispatched, and with a string filter the label is glued onto the
caller's filter value instead of forming its own `label=...` filter token. -/
theorem swarmPs_label_filter_bug :
    swarmPs "mystack" [] true false []
      = Except.error (PyErr.typeError "can only concatenate tuple to tuple")
    ∧ swarmPs "mystack" [] true false [("filter", PyVal.str "status=running")]
      = Except.ok
          { cmd := "docker service ls --filter status=runninglabel=com.docker.stack.namespace=mystack ",
            pipe := some true, check := some false } :=
  And.intro rfl rfl

/-! ## Stack factory (`load_stack`) -/

/-- Errors raised by `load_stack`: `click.BadParameter` for the explicit
configuration checks, `RuntimeError` for the missing-file message, and the
Python runtime exceptions that escape from the body. -/
inductive StackErr where
  | badParameter : String → StackErr
  | runtimeError : String → StackErr
  | pyError : PyErr → StackErr
deriving DecidableEq

/-- The backend instance returned by the factory: stack name, base
directory and compose file, as handed to the selected constructor. -/
inductive Backend where
  | compose : String → PyVal → PyVal → Backend
  | swarm : String → PyVal → PyVal → Backend

/-- load_stack: checks the `stacks` section, finds the named entry (an
entry stored as None counts as undefined), reads `path` (falling back to
the working directory) and `file`; when `file` is absent it builds a
RuntimeError message that subscripts `stack_config[name]`, and finally
selects the Swarm backend exactly when the `swarm` field is truthy. -/
def load_stack (cwd : String) (config : Kwargs) (stack_name : String) :
    Except StackErr Backend :=
  if hasKey config "stacks" then
    match pyGet config "stacks" with
    | .dict stackMap =>
        match getVal stackMap stack_name with
        | Option.none =>
            .error (.badParameter
              ("Stack " ++ stack_name ++ " not defined in the config."))
        | some PyVal.none =>
            .error (.badParameter
              ("Stack " ++ stack_name ++ " not defined in the config."))
        | some sc =>
            match sc with
            | .dict entries =>
                let stack_path :=
                  match pyGet entries "path" with
                  | PyVal.none => PyVal.str cwd
                  | v => v
                match pyGet entries "file" with
                | PyVal.none =>
                    match getVal entries "name" with
                    | Option.none => .error (.pyError (.keyError "name"))
                    | some nv =>
                        .error (.runtimeError
                          ("No property \"file\" found in the config of \""
                            ++ pyStr nv ++ "\" stack."))
                | fileV =>
                    if pyTruthy (pyGet entries "swarm") then
                      .ok (.swarm stack_name stack_path fileV)
                    else
                      .ok (.compose stack_name stack_path fileV)
            | _ => .error (.pyError (.attributeError "get"))
    | _ => .error (.pyError (.attributeError "items"))
  else
    .error (.badParameter "No top key \"stacks\" found in the config.")

/-- C2: the missing-section and unknown-name cases fail with the
BadParameter configuration error, but the missing-`file` case crashes with
KeyError on the nonexistent `name` entry while formatting its error
message, instead of failing with a configuration error. -/
theorem load_stack_missing_file_keyerror :
    load_stack "/work" [] "api"
      = Except.error (StackErr.badParameter
          "No top key \"stacks\" found in the config.")
    ∧ load_stack "/work" [("stacks", PyVal.dict [])] "api"
      = Except.error (StackErr.badParameter
          "Stack api not defined in the config.")
    ∧ load_stack "/work" [("stacks", PyVal.dict [("api", PyVal.dict [])])] "api"
      = Except.error (StackErr.pyError (PyErr.keyError "name")) :=
  And.intro rfl (And.intro rfl rfl)

/-! ## SwarmStack.restart -/

/-- SwarmStack.restart: fills in the config's service names when the
caller passes None, forces `force = True` in the flag set, encodes the
flags onto `docker service update ` (note the trailing space in the base
command) and chains one update command per service with the shell
short-circuit operator. -/
def swarmRestart (cfgServices : List String) (services : Option (List String))
    (p c : Bool) (kwargs : Kwargs) : Invocation :=
  let svcs := match services with
              | Option.none => cfgServices
              | some l => l
  let kw := setKey kwargs "force" (.bool true)
  let basecmd := append_cmd_flags "docker service update " kw
  { cmd := String.intercalate " && " (svcs.map (fun s => basecmd ++ " " ++ s)),
    pipe := some p, check := some c }

/-- Shell evaluation of a `cmd1 && cmd2 && ...` chain against an exit-code
environment: each command runs only if every previous one exited 0, so the
commands that actually run are the successful ones up to and including the
first failure. -/
def runAndChain (exitCode : String → Nat) : List String → List String
  | [] => []
  | cm :: rest =>
      if exitCode cm = 0 then cm :: runAndChain exitCode rest else [cm]

theorem runAndChain_first_failure (exitCode : String → Nat) (l : List String) :
    runAndChain exitCode l
      = l.takeWhile (fun cm => exitCode cm == 0)
        ++ (l.dropWhile (fun cm => exitCode cm == 0)).take 1 := by
  induction l with
  | nil => rfl
  | cons cm rest ih =>
      by_cases h : exitCode cm = 0
      · simp [runAndChain, h, List.takeWhile_cons, List.dropWhile_cons, ih]
      · simp [runAndChain, h, List.takeWhile_cons, List.dropWhile_cons]

/-- C3: restart with services = None expands to one
`docker service update  --force <svc>` command per config service name, in
order, joined with the shell short-circuit operator into one invocation
with the pipe/check switches forwarded; and evaluating such a chain runs
exactly the successful items up to and including the first failing one. -/
theorem swarmRestart_force_update_chain (cfg : List String) (p c : Bool) :
    swarmRestart cfg Option.none p c []
      = { cmd := String.intercalate " && "
            (cfg.map (fun s => "docker service update  --force " ++ s)),
          pipe := some p, check := some c }
    ∧ ∀ exitCode : String → Nat,
        runAndChain exitCode
            (cfg.map (fun s => "docker service update  --force " ++ s))
          = ((cfg.map (fun s => "docker service update  --force " ++ s)).takeWhile
              (fun cm => exitCode cm == 0))
            ++ (((cfg.map (fun s => "docker service update  --force " ++ s)).dropWhile
              (fun cm => exitCode cm == 0)).take 1) := by
  constructor
  · rfl
  · intro exitCode
    exact runAndChain_first_failure exitCode _

/-! ## Lazy, memoized config resolution -/

/-- The memoization state of a backend instance: the `_loaded` flag, the
cached `_config` value, and the log of render commands dispatched so far. -/
structure CfgState where
  loaded : Bool
  cfg : Option PyVal
  log : List String

/-- A freshly constructed backend instance: nothing loaded, nothing
dispatched. -/
def initCfgState : CfgState :=
  { loaded := false, cfg := Option.none, log := [] }

/-- The `_load_config` body shared by both backends: a no-op when already
loaded, otherwise it dispatches the render command once, parses the
captured stdout and flips the flag.  `exec` is the Executor, `parse` the
YAML loader (both external collaborators). -/
def load_config (renderCmd : String) (exec : String → String)
    (parse : String → PyVal) (s : CfgState) : CfgState :=
  if s.loaded then s
  else { loaded := true, cfg := some (parse (exec renderCmd)),
         log := s.log ++ [renderCmd] }

/-- ComposeStack's render command. -/
def composeRenderCmd : String := "docker-compose config 2>/dev/null"

/-- SwarmStack's render command. -/
def swarmRenderCmd : String := "docker-compose config"

theorem load_config_loaded (renderCmd : String) (exec : String → String)
    (parse : String → PyVal) (s : CfgState) (h : s.loaded = true) :
    load_config renderCmd exec parse s = s := by
  simp [load_config, h]

theorem load_config_iterate_loaded (renderCmd : String) (exec : String → String)
    (parse : String → PyVal) (s : CfgState) (h : s.loaded = true) (m : Nat) :
    (load_config renderCmd exec parse)^[m] s = s := by
  induction m with
  | zero => rfl
  | succ m ih =>
      rw [Function.iterate_succ_apply, load_config_loaded _ _ _ _ h, ih]

theorem load_config_once (renderCmd : String) (exec : String → String)
    (parse : String → PyVal) (n : Nat) (h : 1 ≤ n) :
    ((load_config renderCmd exec parse)^[n] initCfgState).log = [renderCmd]
    ∧ ((load_config renderCmd exec parse)^[n] initCfgState).cfg
        = some (parse (exec renderCmd)) := by
  obtain ⟨m, rfl⟩ : ∃ m, n = m + 1 := ⟨n - 1, (Nat.succ_pred_eq_of_pos h).symm⟩
  rw [Function.iterate_succ_apply]
  have h1 : load_config renderCmd exec parse initCfgState
      = { loaded := true, cfg := some (parse (exec renderCmd)),
          log := [renderCmd] } := rfl
  rw [h1, load_config_iterate_loaded _ _ _ _ rfl]
  exact ⟨rfl, rfl⟩

/-- C4: on either backend, any positive number of sequential accesses to
the `config` property dispatches the render command exactly once, and the
cached value is the parse of that single invocation's output. -/
theorem config_resolved_once (exec : String → String) (parse : String → PyVal)
    (n : Nat) (h : 1 ≤ n) :
    ((load_config composeRenderCmd exec parse)^[n] initCfgState).log
        = [composeRenderCmd]
    ∧ ((load_config composeRenderCmd exec parse)^[n] initCfgState).cfg
        = some (parse (exec composeRenderCmd))
    ∧ ((load_config swarmRenderCmd exec parse)^[n] initCfgState).log
        = [swarmRenderCmd]
    ∧ ((load_config swarmRenderCmd exec parse)^[n] initCfgState).cfg
        = some (parse (exec swarmRenderCmd)) := by
  obtain ⟨hc1, hc2⟩ := load_config_once composeRenderCmd exec parse n h
  obtain ⟨hs1, hs2⟩ := load_config_once swarmRenderCmd exec parse n h
  exact ⟨hc1, hc2, hs1, hs2⟩

/-- Witness for C4 at two accesses with a concrete executor and parser. -/
theorem config_resolved_once_witness :
    (1 ≤ 2)
    ∧ ((load_config composeRenderCmd (fun _ => "out") (fun _ => PyVal.none))^[2]
          initCfgState).log = [composeRenderCmd] :=
  And.intro (by decide)
    (config_resolved_once (fun _ => "out") (fun _ => PyVal.none) 2 (by decide)).1

/-! ## Dictionary lemmas -/

theorem hasKey_eq_false_iff (l : Kwargs) (k : String) :
    hasKey l k = false ↔ getVal l k = Option.none := by
  unfold hasKey
  cases h : getVal l k <;> simp

theorem getVal_append_single (l : Kwargs) (k k' : String) (v : PyVal) :
    getVal (l ++ [(k, v)]) k'
      = match getVal l k' with
        | some w => some w
        | Option.none => if k = k' then some v else Option.none := by
  induction l with
  | nil => simp [getVal]
  | cons kv rest ih =>
      obtain ⟨k0, v0⟩ := kv
      by_cases h : k0 = k'
      · simp [getVal, h]
      · simp [getVal, h, ih]

theorem setKey_of_hasKey_false (l : Kwargs) (k : String) (v : PyVal)
    (h : hasKey l k = false) : setKey l k v = l ++ [(k, v)] := by
  rw [hasKey_eq_false_iff] at h
  induction l with
  | nil => rfl
  | cons kv rest ih =>
      obtain ⟨k0, v0⟩ := kv
      by_cases hk : k0 = k
      · simp [getVal, hk] at h
      · simp [getVal, hk] at h
        simp [setKey, hk, ih h]

theorem getVal_setdefault_of_none (l : Kwargs) (k : String) (v : PyVal)
    (h : getVal l k = Option.none) :
    getVal (setdefault l k v) k = some v := by
  have hf : hasKey l k = false := (hasKey_eq_false_iff l k).mpr h
  simp [setdefault, hf, getVal_append_single, h]

theorem setdefault_of_some (l : Kwargs) (k : String) (v w : PyVal)
    (h : getVal l k = some w) : setdefault l k v = l := by
  have ht : hasKey l k = true := by unfold hasKey; rw [h]
  simp [setdefault, ht]

theorem getVal_setdefault_ne (l : Kwargs) (k k' : String) (v : PyVal)
    (h : k ≠ k') : getVal (setdefault l k v) k' = getVal l k' := by
  unfold setdefault
  by_cases hk : hasKey l k
  · simp [hk]
  · simp [hk, getVal_append_single, h]
    cases hv : getVal l k' <;> simp

theorem append_cmd_flags_snoc (cmd : String) (l : Kwargs) (k : String) (v : PyVal) :
    append_cmd_flags cmd (l ++ [(k, v)])
      = append_cmd_flags cmd l ++ encodeFlag k v := by
  simp [append_cmd_flags, List.foldl_append]

/-! ## logs on both backends -/

/-- ComposeStack.logs: encodes the flags, joins the service names — and
hands the command to `_run` without forwarding `_pipe`/`_check`, so the
Executor falls back to its own defaults for this call. -/
def composeLogs (services : List String) (p c : Bool) (kwargs : Kwargs) :
    Invocation :=
  { cmd := append_cmd_flags "docker-compose logs" kwargs
            ++ " " ++ String.intercalate " " services,
    pipe := Option.none, check := Option.none }

/-- SwarmStack.logs: same command, but forwards `_pipe`/`_check`. -/
def swarmLogs (services : List String) (p c : Bool) (kwargs : Kwargs) :
    Invocation :=
  { cmd := append_cmd_flags "docker-compose logs" kwargs
            ++ " " ++ String.intercalate " " services,
    pipe := some p, check := some c }

/-- C5: ComposeStack.logs drops the caller's pipe/check switches — whatever
the caller passes, the dispatched invocation carries neither switch — while
SwarmStack.logs forwards both. -/
theorem composeLogs_drops_switches (services : List String) (p c : Bool)
    (kwargs : Kwargs) :
    (composeLogs services p c kwargs).pipe = Option.none
    ∧ (composeLogs services p c kwargs).check = Option.none
    ∧ (swarmLogs services p c kwargs).pipe = some p
    ∧ (swarmLogs services p c kwargs).check = some c :=
  ⟨rfl, rfl, rfl, rfl⟩

/-! ## inspect and get_ip_address -/

/-- The result of a dispatched process, as the Executor returns it. -/
structure CompletedProcess where
  returncode : Int
  stdout : String

/-- Errors surfacing from operations that consume an invocation's result. -/
inductive ExecErr where
  | calledProcessError : Int → String → ExecErr
  | runtimeError : String → ExecErr
  | pyError : PyErr → ExecErr
deriving DecidableEq

/-- Modelled from the spec: the Executor (`kitipy.executor`, whose source
file is not part of the sources) runs a shell command and either returns
its result or, when the check switch is engaged and the exit code is
nonzero, raises a process error instead of returning. -/
def runExec (world : String → CompletedProcess) (cmd : String) (check : Bool) :
    Except ExecErr CompletedProcess :=
  let r := world cmd
  if check && !(r.returncode == 0) then
    .error (.calledProcessError r.returncode cmd)
  else .ok r

/-- ComposeStack.inspect's command: flags onto `docker inspect`, then the
`<stack>_<service>_<replica>` container name. -/
def composeInspectCmd (name service : String) (replica : Nat)
    (kwargs : Kwargs) : String :=
  append_cmd_flags "docker inspect" kwargs
    ++ " " ++ name ++ "_" ++ service ++ "_" ++ toString replica

/-- Parsed JSON documents, as `json.loads` returns them. -/
inductive Json where
  | str : String → Json
  | arr : List Json → Json
  | obj : List (String × Json) → Json
  | null : Json

/-- Python subscript on a parsed JSON list. -/
def jIndex (j : Json) (i : Nat) : Except PyErr Json :=
  match j with
  | .arr xs =>
      match xs.get? i with
      | some x => .ok x
      | Option.none => .error (.indexError "list index out of range")
  | _ => .error (.typeError "object is not subscriptable")

/-- Python subscript on a parsed JSON object. -/
def jKey (j : Json) (k : String) : Except PyErr Json :=
  match j with
  | .obj kvs =>
      match (kvs.find? (fun kv => kv.1 == k)).map (fun kv => kv.2) with
      | some x => .ok x
      | Option.none => .error (.keyError k)
  | _ => .error (.typeError "object is not subscriptable")

/-- The subscript chain
`data[0][NetworkSettings][Networks][network][IPAddress]`. -/
def ipAddressPath (j : Json) (network : String) : Except PyErr Json := do
  let d0 ← jIndex j 0
  let ns ← jKey d0 "NetworkSettings"
  let nets ← jKey ns "Networks"
  let net ← jKey nets network
  jKey net "IPAddress"

/-- ComposeStack.get_ip_address: inspects the service (replica 1, no extra
flags, check engaged by the inspect default), guards on the returncode, then
parses stdout as JSON and walks the network path.  `world` is the state of
the outside world consulted by the Executor, `jparse` the JSON parser. -/
def compose_get_ip_address (world : String → CompletedProcess)
    (jparse : String → Json) (name service network : String) :
    Except ExecErr Json :=
  match runExec world (composeInspectCmd name service 1 []) true with
  | .error e => .error e
  | .ok res =>
      if !(res.returncode == 0) then
        .error (.runtimeError ("Could not inspect service " ++ service ++ "."))
      else
        match ipAddressPath (jparse res.stdout) network with
        | .ok v => .ok v
        | .error e => .error (.pyError e)

/-- The methods declared abstract on BaseStack, in declaration order. -/
def baseStackMethods : List String :=
  ["config", "build", "push", "up", "down", "restart", "ps",
   "count_services", "logs", "exec", "run", "inspect"]

/-- The methods ComposeStack's class body defines, in declaration order. -/
def composeStackOwnMethods : List String :=
  ["config", "_load_config", "check_config", "build", "push", "up", "down",
   "restart", "ps", "count_services", "logs", "exec", "run", "inspect",
   "raw", "get_ip_address", "_run"]

/-- The methods SwarmStack's class body defines, in declaration order. -/
def swarmStackOwnMethods : List String :=
  ["config", "_load_config", "check_config", "build", "push", "up", "down",
   "restart", "ps", "count_services", "logs", "exec", "run", "inspect",
   "_run"]

/-- C6 counterexample: attribute lookup resolves `get_ip_address` on the
Compose class but on neither the Swarm class body nor the shared base
contract, so the Swarm backend does not expose the operation at all; and
on the Compose backend a failing inspect (exit code 2 here) surfaces as
the Executor's process error, not as the inspection failure the claim
names. -/
theorem get_ip_address_missing_on_swarm :
    ("get_ip_address" ∈ composeStackOwnMethods ++ baseStackMethods
      ∧ "get_ip_address" ∉ swarmStackOwnMethods ++ baseStackMethods)
    ∧ compose_get_ip_address (fun _ => CompletedProcess.mk 2 "")
        (fun _ => Json.null) "app" "api" "mynet"
        = Except.error (ExecErr.calledProcessError 2 "docker inspect app_api_1") := by
  exact ⟨by constructor <;> decide, rfl⟩

/-- C6 amended: only the Compose backend defines get_ip_address; a nonzero
inspect exit surfaces as the Executor's process error (the inspect call is
dispatched with check engaged, so the in-method returncode guard never sees
a nonzero code), and a zero exit yields exactly the JSON walk of the
inspect stdout. -/
theorem compose_get_ip_address_spec (world : String → CompletedProcess)
    (jparse : String → Json) (name service network : String) :
    "get_ip_address" ∉ swarmStackOwnMethods ++ baseStackMethods
    ∧ ((world (composeInspectCmd name service 1 [])).returncode ≠ 0 →
        compose_get_ip_address world jparse name service network
          = Except.error (ExecErr.calledProcessError
              (world (composeInspectCmd name service 1 [])).returncode
              (composeInspectCmd name service 1 [])))
    ∧ ((world (composeInspectCmd name service 1 [])).returncode = 0 →
        compose_get_ip_address world jparse name service network
          = match ipAddressPath
              (jparse (world (composeInspectCmd name service 1 [])).stdout)
              network with
            | .ok v => Except.ok v
            | .error e => Except.error (.pyError e)) := by
  refine ⟨by decide, ?_, ?_⟩
  · intro h
    simp [compose_get_ip_address, runExec, h]
  · intro h
    simp [compose_get_ip_address, runExec, h]

/-- Witness for C6's amended theorem: a failing inspect surfaces the
process error; a successful one returns the network-scoped address. -/
theorem compose_get_ip_address_spec_witness :
    ((fun _ : String => CompletedProcess.mk 1 "") (composeInspectCmd "app" "api" 1 [])).returncode ≠ 0
    ∧ compose_get_ip_address (fun _ => CompletedProcess.mk 1 "")
        (fun _ => Json.null) "app" "api" "mynet"
        = Except.error (ExecErr.calledProcessError 1
            (composeInspectCmd "app" "api" 1 [])) :=
  And.intro (by decide)
    ((compose_get_ip_address_spec (fun _ => CompletedProcess.mk 1 "")
      (fun _ => Json.null) "app" "api" "mynet").2.1 (by decide))

/-! ## ComposeStack.ps -/

/-- ComposeStack.ps: when a filter is passed and no explicit services
toggle, sets `services = True` in the flag set before encoding (the
underlying tool's filter flag needs it), then encodes onto
`docker-compose ps` and appends the joined service names. -/
def composePs (services : List String) (p c : Bool) (kwargs : Kwargs) :
    Invocation :=
  let kw := if hasKey kwargs "filter" && !(hasKey kwargs "services") then
              setKey kwargs "services" (.bool true)
            else kwargs
  { cmd := append_cmd_flags "docker-compose ps" kw
            ++ " " ++ String.intercalate " " services,
    pipe := some p, check := some c }

/-- C7: ps on the Compose backend, given a filter and no explicit services
entry, always dispatches a command containing the bare `--services`
toggle. -/
theorem composePs_filter_adds_services (services : List String) (p c : Bool)
    (kwargs : Kwargs) (hf : hasKey kwargs "filter" = true)
    (hs : hasKey kwargs "services" = false) :
    ∃ a b, (composePs services p c kwargs).cmd = a ++ " --services" ++ b := by
  refine ⟨append_cmd_flags "docker-compose ps" kwargs,
          " " ++ String.intercalate " " services, ?_⟩
  have hcond : (hasKey kwargs "filter" && !(hasKey kwargs "services")) = true := by
    simp [hf, hs]
  simp only [composePs, hcond, if_true]
  rw [setKey_of_hasKey_false kwargs "services" (.bool true) hs,
      append_cmd_flags_snoc]
  have he : encodeFlag "services" (.bool true) = " --services" := rfl
  rw [he, String.append_assoc]

/-- Witness for C7 with a concrete filter. -/
theorem composePs_filter_adds_services_witness :
    hasKey [("filter", PyVal.str "status=running")] "filter" = true
    ∧ hasKey [("filter", PyVal.str "status=running")] "services" = false
    ∧ ∃ a b, (composePs [] true false
        [("filter", PyVal.str "status=running")]).cmd
          = a ++ " --services" ++ b :=
  ⟨by decide, by decide,
   composePs_filter_adds_services [] true false
     [("filter", PyVal.str "status=running")] (by decide) (by decide)⟩

/-! ## SwarmStack.up -/

/-- The flag set SwarmStack.up actually encodes: the caller's kwargs with
`resolve-image` defaulted to `never` and `prune` defaulted to True. -/
def swarmUpKwargs (kwargs : Kwargs) : Kwargs :=
  setdefault (setdefault kwargs "resolve-image" (.str "never"))
    "prune" (.bool true)

/-- SwarmStack.up: defaults the two options, encodes them onto
`docker stack deploy -c <renderedFile> ` and appends the stack name.
(The services argument is accepted but unused by the body.) -/
def swarmUp (cfgFile name : String) (services : List String) (p c : Bool)
    (kwargs : Kwargs) : Invocation :=
  { cmd := append_cmd_flags ("docker stack deploy -c " ++ cfgFile ++ " ")
            (swarmUpKwargs kwargs) ++ " " ++ name,
    pipe := some p, check := some c }

/-- C8: up on the Swarm backend dispatches a `docker stack deploy` command
whose flag set defaults `resolve-image` to `never` and `prune` to enabled
exactly when the caller did not supply them, keeps caller-supplied values
untouched, and the dispatched command is the encoding of that flag set. -/
theorem swarmUp_defaults (cfgFile name : String) (services : List String)
    (p c : Bool) (kwargs : Kwargs) :
    (getVal kwargs "resolve-image" = Option.none →
      getVal (swarmUpKwargs kwargs) "resolve-image" = some (PyVal.str "never"))
    ∧ (∀ v, getVal kwargs "resolve-image" = some v →
        getVal (swarmUpKwargs kwargs) "resolve-image" = some v)
    ∧ (getVal kwargs "prune" = Option.none →
        getVal (swarmUpKwargs kwargs) "prune" = some (PyVal.bool true))
    ∧ (∀ v, getVal kwargs "prune" = some v →
        getVal (swarmUpKwargs kwargs) "prune" = some v)
    ∧ (swarmUp cfgFile name services p c kwargs).cmd
        = append_cmd_flags ("docker stack deploy -c " ++ cfgFile ++ " ")
            (swarmUpKwargs kwargs) ++ " " ++ name := by
  have hne : "prune" ≠ "resolve-image" := by decide
  have hne' : "resolve-image" ≠ "prune" := by decide
  refine ⟨?_, ?_, ?_, ?_, rfl⟩
  · intro h
    rw [swarmUpKwargs, getVal_setdefault_ne _ _ _ _ hne,
        getVal_setdefault_of_none _ _ _ h]
  · intro v h
    rw [swarmUpKwargs, getVal_setdefault_ne _ _ _ _ hne,
        setdefault_of_some _ _ _ _ h, h]
  · intro h
    have h2 : getVal (setdefault kwargs "resolve-image" (.str "never")) "prune"
        = Option.none := by
      rw [getVal_setdefault_ne _ _ _ _ hne', h]
    rw [swarmUpKwargs, getVal_setdefault_of_none _ _ _ h2]
  · intro v h
    have h2 : getVal (setdefault kwargs "resolve-image" (.str "never")) "prune"
        = some v := by
      rw [getVal_setdefault_ne _ _ _ _ hne', h]
    rw [swarmUpKwargs, setdefault_of_some _ _ _ _ h2, h2]

/-- Witness for C8: with no caller-supplied options both defaults appear;
a caller-supplied prune value survives. -/
theorem swarmUp_defaults_witness :
    getVal (swarmUpKwargs []) "resolve-image" = some (PyVal.str "never")
    ∧ getVal (swarmUpKwargs []) "prune" = some (PyVal.bool true)
    ∧ getVal (swarmUpKwargs [("prune", PyVal.bool false)]) "prune"
        = some (PyVal.bool false) :=
  ⟨(swarmUp_defaults "f.yml" "app" [] false true []).1 rfl,
   (swarmUp_defaults "f.yml" "app" [] false true []).2.2.1 rfl,
   (swarmUp_defaults "f.yml" "app" [] false true
      [("prune", PyVal.bool false)]).2.2.2.1 (PyVal.bool false) rfl⟩

/-! ## exec and run -/

/-- Python ' '.join applied to a string: the string is an iterable of its
characters, so they come back separated by the separator. -/
def pyStrJoin (sep : String) (s : String) : String :=
  String.intercalate sep (s.toList.map Char.toString)

/-- ComposeStack.exec: flags onto `docker-compose exec`, the service name,
then ' '.join(cmd) — cmd being a string, its characters spaced apart. -/
def composeExec (service cmdStr : String) (p c : Bool) (kwargs : Kwargs) :
    Invocation :=
  { cmd := append_cmd_flags "docker-compose exec" kwargs
            ++ " " ++ service ++ " " ++ pyStrJoin " " cmdStr,
    pipe := some p, check := some c }

/-- SwarmStack.exec: identical shape to the Compose one. -/
def swarmExec (service cmdStr : String) (p c : Bool) (kwargs : Kwargs) :
    Invocation :=
  { cmd := append_cmd_flags "docker-compose exec" kwargs
            ++ " " ++ service ++ " " ++ pyStrJoin " " cmdStr,
    pipe := some p, check := some c }

/-- ComposeStack.run: defaults the flag set to `rm = True` when empty, then
appends the command string verbatim. -/
def composeRun (service cmdStr : String) (p c : Bool) (kwargs : Kwargs) :
    Invocation :=
  let kw := if kwargs.isEmpty then [("rm", PyVal.bool true)] else kwargs
  { cmd := append_cmd_flags "docker-compose run" kw
            ++ " " ++ service ++ " " ++ cmdStr,
    pipe := some p, check := some c }

/-- C9: exec on either backend interpolates the command string through
' '.join, spacing its characters apart (so `ls` becomes `l s`), while run
appends the command string verbatim. -/
theorem exec_joins_command_characters (service cmdStr : String) (p c : Bool)
    (kwargs : Kwargs) :
    (composeExec service cmdStr p c kwargs).cmd
      = append_cmd_flags "docker-compose exec" kwargs
          ++ " " ++ service ++ " " ++ pyStrJoin " " cmdStr
    ∧ (swarmExec service cmdStr p c kwargs).cmd
      = append_cmd_flags "docker-compose exec" kwargs
          ++ " " ++ service ++ " " ++ pyStrJoin " " cmdStr
    ∧ (composeRun service cmdStr p c kwargs).cmd
      = append_cmd_flags "docker-compose run"
          (if kwargs.isEmpty then [("rm", PyVal.bool true)] else kwargs)
          ++ " " ++ service ++ " " ++ cmdStr
    ∧ pyStrJoin " " "ls" = "l s"
    ∧ (composeExec "api" "ls" false true []).cmd
        = "docker-compose exec api l s" :=
  ⟨rfl, rfl, rfl, rfl, rfl⟩

/-! ## check_config on both backends -/

/-- ComposeStack.check_config's render command. -/
def composeCheckCmd : String := "docker-compose config 2>&1 1>/dev/null"

/-- SwarmStack.check_config's shell pipeline (noise about the unsupported
deploy key filtered out). -/
def swarmCheckCmd : String :=
  "docker-compose config 2>&1 1>/dev/null | grep -v \" Compose does not support \x27deploy\x27 configuration\""

/-- ComposeStack.check_config: dispatches the render command (no explicit
pipe/check, so the result comes back for inspection) and returns whether
its exit code is zero. -/
def compose_check_config (world : String → CompletedProcess) : Bool :=
  (world composeCheckCmd).returncode == 0

/-- SwarmStack.check_config: dispatches its pipeline, binds the result to a
local that is never used, and falls off the end of the body — the command
dispatched paired with the Python return value, which is always None. -/
def swarm_check_config (world : String → CompletedProcess) : String × PyVal :=
  let _ := world swarmCheckCmd
  (swarmCheckCmd, PyVal.none)

/-- C10: SwarmStack.check_config returns None whatever the invocation's
result was, so its return value carries no validity information, while
ComposeStack.check_config returns exactly the exit-code-is-zero boolean of
its render invocation. -/
theorem check_config_return_values (world : String → CompletedProcess) :
    (swarm_check_config world).2 = PyVal.none
    ∧ (compose_check_config world = true ↔
        (world composeCheckCmd).returncode = 0) := by
  refine ⟨rfl, ?_⟩
  simp [compose_check_config]

end Kitipy
